import Mathlib

/-
Verification development for the multisig bootstrap script
(src/Task-1/src/bootstrap.multisig.ts of Sky-walkerX/caravan-competency).

The script is a linear regtest bootstrap: it derives three key pairs from a
fixed mnemonic, sorts the public keys bytewise, builds a 2-of-3 P2SH multisig
redeem script and address, sets up two node wallets via RPC, funds the multisig
address from a faucet wallet, and spends the funded output back.

Modelling conventions:
- Byte buffers (public keys, scripts, signatures) are lists of naturals.
- Monetary amounts are carried in base units (satoshi, 1 BTC = 10^8 sat);
  every constant of the script (0.01, 0.001, 0.0001, the 500-sat fee) is an
  exact multiple of one satoshi, so the comparisons of the script are captured
  exactly at this granularity.
- The one place where IEEE-754 binary64 rounding is observable, the spend
  output value floor((amount - 0.0001) * 1e8), is modelled exactly: a binary64
  value is a dyadic rational m * 2^e with at most 53 significand bits, and each
  arithmetic operation is the exact result rounded to nearest, ties to even.
- External cryptographic primitives (BIP39/BIP32 derivation, WIF encoding,
  hash-and-encode of the P2SH address) are opaque function parameters: the
  claims about them concern only purity / data flow, never their internals.
-/

namespace MultisigBootstrap

/- ## Configuration constants (bootstrap.multisig.ts lines 17-23) -/

/-- Total number of keys N (TOTAL_KEYS = 3, line 17). -/
def TOTAL_KEYS : Nat := 3

/-- Threshold M (REQUIRED_SIGNATURES = 2, line 18). -/
def REQUIRED_SIGNATURES : Nat := 2

/-- FUNDING_AMOUNT_BTC = 0.01 BTC (line 22), in base units. -/
def FUNDING_AMOUNT_SATS : Nat := 1000000

/-- FEE_RATE_SAT_PER_VBYTE = 2 (line 23). -/
def FEE_RATE_SAT_PER_VBYTE : Nat := 2

/-- txSizeEstimate = 250 virtual bytes (line 215). -/
def txSizeEstimate : Nat := 250

/-- feeEstimate = FEE_RATE_SAT_PER_VBYTE * txSizeEstimate / 1e8 BTC
(line 216), in base units: 500 sat = 0.000005 BTC. -/
def feeEstimateSats : Nat := FEE_RATE_SAT_PER_VBYTE * txSizeEstimate

/-- The selection margin 0.001 BTC used in the UTXO predicate
u.amount >= FUNDING_AMOUNT_BTC + 0.001 (line 212), in base units. -/
def SELECTION_MARGIN_SATS : Nat := 100000

/-- The flat spend fee 0.0001 BTC deducted at line 312, in base units. -/
def SPEND_FEE_SATS : Nat := 10000

/- ## Public keys and Buffer.compare (line 79) -/

/-- A compressed public key as a byte buffer. -/
abbrev PubKey := List Nat

/-- Buffer.compare: bytewise lexicographic comparison; when one buffer is a
prefix of the other the shorter one is smaller.  This is the comparator passed
to Array.prototype.sort at line 79. -/
def bufCompare : List Nat → List Nat → Ordering
  | [], [] => Ordering.eq
  | [], _ :: _ => Ordering.lt
  | _ :: _, [] => Ordering.gt
  | a :: as, b :: bs =>
    if a < b then Ordering.lt
    else if b < a then Ordering.gt
    else bufCompare as bs

/-- The non-strict order induced by bufCompare. -/
def bufLe (a b : List Nat) : Prop := bufCompare a b ≠ Ordering.gt

instance : DecidableRel bufLe :=
  fun a b => inferInstanceAs (Decidable (bufCompare a b ≠ Ordering.gt))

/-- The sort at line 79.  The JavaScript engine may use any sorting algorithm,
but with a comparator that is a total order whose ties are actual equalities
the sorted permutation is unique, so insertion sort models the result. -/
def sortKeys (keys : List PubKey) : List PubKey := List.insertionSort bufLe keys

/- Order-theoretic facts about bufCompare, stated as definitions of proof
terms so that the instance declarations below can use them. -/

/-- bufCompare returns eq exactly on equal buffers. -/
def bufCompare_eq_iff : ∀ a b : List Nat, bufCompare a b = Ordering.eq ↔ a = b := by
  intro a
  induction a with
  | nil => intro b; cases b <;> simp [bufCompare]
  | cons x xs ih =>
    intro b
    cases b with
    | nil => simp [bufCompare]
    | cons y ys =>
      simp only [bufCompare]
      split_ifs with h1 h2
      · constructor
        · intro h; cases h
        · intro h; injection h with hx hxs; omega
      · constructor
        · intro h; cases h
        · intro h; injection h with hx hxs; omega
      · have hxy : x = y := by omega
        subst hxy
        constructor
        · intro h; rw [(ih ys).mp h]
        · intro h; injection h with hx hxs; exact (ih ys).mpr hxs

/-- Swapping the arguments of bufCompare swaps the verdict. -/
def bufCompare_swap : ∀ a b : List Nat, bufCompare b a = (bufCompare a b).swap := by
  intro a
  induction a with
  | nil => intro b; cases b <;> simp [bufCompare, Ordering.swap]
  | cons x xs ih =>
    intro b
    cases b with
    | nil => simp [bufCompare, Ordering.swap]
    | cons y ys =>
      simp only [bufCompare]
      split_ifs <;>
        first
          | rfl
          | omega
          | (exact ih ys)

/-- bufCompare verdicts lt compose transitively. -/
def bufCompare_lt_trans :
    ∀ a b c : List Nat, bufCompare a b = Ordering.lt →
      bufCompare b c = Ordering.lt → bufCompare a c = Ordering.lt := by
  intro a
  induction a with
  | nil =>
    intro b c h1 h2
    cases c with
    | nil =>
      cases b with
      | nil => simp [bufCompare] at h1
      | cons y ys => simp [bufCompare] at h2
    | cons z zs => simp [bufCompare]
  | cons x xs ih =>
    intro b c h1 h2
    cases b with
    | nil => simp [bufCompare] at h1
    | cons y ys =>
      cases c with
      | nil => simp [bufCompare] at h2
      | cons z zs =>
        simp only [bufCompare] at h1 h2 ⊢
        split_ifs at h1 h2 ⊢ <;>
          first
            | rfl
            | omega
            | (exact ih ys zs h1 h2)

instance : IsTrans (List Nat) bufLe := by
  constructor
  intro a b c h1 h2
  unfold bufLe at *
  cases hab : bufCompare a b with
  | eq =>
    have h := (bufCompare_eq_iff a b).mp hab
    subst h; exact h2
  | gt => exact absurd hab h1
  | lt =>
    cases hbc : bufCompare b c with
    | eq =>
      have h := (bufCompare_eq_iff b c).mp hbc
      subst h; exact h1
    | gt => exact absurd hbc h2
    | lt =>
      rw [bufCompare_lt_trans a b c hab hbc]
      simp

instance : IsAntisymm (List Nat) bufLe := by
  constructor
  intro a b h1 h2
  unfold bufLe at *
  cases hab : bufCompare a b with
  | eq => exact (bufCompare_eq_iff a b).mp hab
  | gt => exact absurd hab h1
  | lt =>
    rw [bufCompare_swap a b, hab] at h2
    simp [Ordering.swap] at h2

instance : IsTotal (List Nat) bufLe := by
  constructor
  intro a b
  unfold bufLe
  cases hab : bufCompare a b with
  | eq => left; simp
  | lt => left; simp
  | gt =>
    right
    rw [bufCompare_swap a b, hab]
    simp [Ordering.swap]

/- ## Redeem script and address (bitcoin.payments.p2ms / p2sh, lines 83-90) -/

/-- Minimal-push encoding of a data item of fewer than 76 bytes: a length
byte followed by the data (how p2ms embeds each 33-byte key). -/
def pushData (k : PubKey) : List Nat := k.length :: k

/-- Small-number opcode OP_1 .. OP_16 (0x51 .. 0x60). -/
def opNum (n : Nat) : Nat := 80 + n

/-- Opcode OP_CHECKMULTISIG (0xae). -/
def OP_CHECKMULTISIG : Nat := 174

/-- The p2ms output script: OP_m, the pushed keys in the given order, OP_n,
OP_CHECKMULTISIG (bitcoin.payments.p2ms at line 83, applied to the key list
it receives). -/
def p2msOutput (m : Nat) (pubkeys : List PubKey) : List Nat :=
  opNum m :: (pubkeys.map pushData).flatten ++ [opNum pubkeys.length, OP_CHECKMULTISIG]

/-- The redeem script that bootstrap builds: p2ms over the input keys sorted
by bufCompare (lines 77-87). -/
def bootstrapRedeemScript (m : Nat) (inputKeys : List PubKey) : List Nat :=
  p2msOutput m (sortKeys inputKeys)

/-- The P2SH address of line 88-89: a pure hash-and-encode function of the
redeem script, supplied by the external library and modelled as an arbitrary
function addrOf of the script bytes. -/
def bootstrapAddress (addrOf : List Nat → String) (m : Nat)
    (inputKeys : List PubKey) : String :=
  addrOf (bootstrapRedeemScript m inputKeys)

/- ## Key derivation (lines 68-76) -/

/-- A derived key pair as the script holds it. -/
structure KeyPairM where
  privateKey : List Nat
  publicKey : PubKey

/-- The external cryptographic primitives used in Step 1: bip39 seed
derivation, BIP32 path derivation from the seed, and key-pair construction
from a private key.  They are pure functions of their arguments. -/
structure CryptoOps where
  mnemonicToSeed : String → List Nat
  deriveAtPath : List Nat → List (Nat × Bool) → List Nat
  fromPrivateKey : List Nat → KeyPairM

/-- The fixed mnemonic of line 68. -/
def MNEMONIC : String := "test test test test test test test test test test test junk"

/-- The derivation path of index i (line 72), as a list of
(childIndex, hardened) pairs: 44 hardened, 1 hardened, 0 hardened, 0, i. -/
def derivationPath (i : Nat) : List (Nat × Bool) :=
  [(44, true), (1, true), (0, true), (0, false), (i, false)]

/-- Step 1 of bootstrap (lines 69-75): derive n key pairs at the leaf
indices 0 .. n-1 of the fixed path scheme from the fixed mnemonic. -/
def deriveKeyPairs (c : CryptoOps) (n : Nat) : List KeyPairM :=
  (List.range n).map fun i =>
    c.fromPrivateKey (c.deriveAtPath (c.mnemonicToSeed MNEMONIC) (derivationPath i))

/-- The runtime environment visible to the bootstrap process: the crypto
library, plus every other ambient input the process could in principle read
(CLI responses of the node and the clock).  Step 1 reads none of the latter. -/
structure Env where
  crypto : CryptoOps
  cliResponses : List String
  clock : Nat

/-- The key pairs bootstrap derives in a given environment (lines 71-75):
only the crypto primitives, the fixed mnemonic and TOTAL_KEYS enter. -/
def bootstrapKeyPairs (env : Env) : List KeyPairM :=
  deriveKeyPairs env.crypto TOTAL_KEYS

/- ## Persisted artifact multisig_keys.json (lines 76-100) -/

/-- The JSON record written to multisig_keys.json (lines 93-100). -/
structure SavedArtifact where
  wifs : List String
  redeemScript : List Nat
  multisigAddress : String

/-- The artifact as built at lines 76-96: the WIFs come from the key pairs in
derivation order (line 76, before any sorting), while the redeem script and
address are built over the bufCompare-sorted public keys (lines 77-89).
wifOf is the external WIF encoder, addrOf the external address encoder. -/
def savedArtifact (wifOf : KeyPairM → String) (addrOf : List Nat → String)
    (kps : List KeyPairM) : SavedArtifact :=
  { wifs := kps.map wifOf
  , redeemScript := bootstrapRedeemScript REQUIRED_SIGNATURES (kps.map (·.publicKey))
  , multisigAddress := bootstrapAddress addrOf REQUIRED_SIGNATURES (kps.map (·.publicKey)) }

/- ## Wallet setup error branching (lines 104-160) -/

/-- Outcome of the catch branch of the wallet load attempt. -/
inductive WalletLoadOutcome where
  | createdWallet
  | alreadyLoadedOk
  | fatalError
  deriving DecidableEq

/-- The branching of lines 132-158 on the numeric RPC error code parsed out
of the load failure message by getErrorCode (lines 52-55; a message without a
parsable code yields none).  Codes -4 and -18 mean the wallet does not exist
or its directory is missing, so the wallet is created; code -35 means the
wallet is already loaded, treated as success; everything else is rethrown. -/
def handleWalletLoadError (errorCode : Option Int) : WalletLoadOutcome :=
  if errorCode = some (-4) ∨ errorCode = some (-18) then WalletLoadOutcome.createdWallet
  else if errorCode = some (-35) then WalletLoadOutcome.alreadyLoadedOk
  else WalletLoadOutcome.fatalError

/- ## Coinbase maturation (lines 193-197) -/

/-- The coinbase maturity threshold the script checks against (line 194). -/
def COINBASE_MATURITY : Nat := 101

/-- Number of blocks Step 6 mines for maturation: 101 when the chain height
is below 101, none otherwise (lines 194-197). -/
def maturationBlocksToMine (blockCount : Nat) : Nat :=
  if blockCount < COINBASE_MATURITY then 101 else 0

/- ## Faucet UTXO selection and change (lines 209-218) -/

/-- A UTXO as returned by listunspent, with the amount in base units. -/
structure Utxo where
  txid : String
  vout : Nat
  amountSats : Nat
  spendable : Bool
  deriving DecidableEq

/-- The selection predicate of line 212:
u.amount >= FUNDING_AMOUNT_BTC + 0.001 and u.spendable. -/
def suitableUtxo (u : Utxo) : Bool :=
  decide (FUNDING_AMOUNT_SATS + SELECTION_MARGIN_SATS ≤ u.amountSats) && u.spendable

/-- utxos.find(...) of line 212: the first UTXO in listing order passing
suitableUtxo. -/
def selectUtxo (utxos : List Utxo) : Option Utxo := utxos.find? suitableUtxo

/-- The predicate the spec attributes to the selection: amount at least
funding amount plus the fee (feeEstimate = 0.000005 BTC), and spendable.
This definition follows the words of the spec, for comparison with
suitableUtxo taken from the source. -/
def specSuitableUtxo (u : Utxo) : Bool :=
  decide (FUNDING_AMOUNT_SATS + feeEstimateSats ≤ u.amountSats) && u.spendable

/-- Selection as the spec words it: first UTXO meeting amount at least
funding plus fee, spendable. -/
def specSelectUtxo (utxos : List Utxo) : Option Utxo := utxos.find? specSuitableUtxo

/-- Failures of the funding step. -/
inductive FundingError where
  | NoSuitableUtxo
  | InsufficientFunds
  deriving DecidableEq

/-- changeAmount = utxo.amount - FUNDING_AMOUNT_BTC - feeEstimate
(line 217), in base units. -/
def changeAmountSats (u : Utxo) : Int :=
  (u.amountSats : Int) - FUNDING_AMOUNT_SATS - feeEstimateSats

/-- Lines 209-218: select a UTXO (throwing when none suits), compute the
change, and throw when the change is negative. -/
def fundingStep (utxos : List Utxo) : Except FundingError (Utxo × Int) :=
  match selectUtxo utxos with
  | none => Except.error FundingError.NoSuitableUtxo
  | some u =>
    let change := changeAmountSats u
    if change < 0 then Except.error FundingError.InsufficientFunds
    else Except.ok (u, change)

/- ## Exact binary64 model for the spend output value (line 312) -/

/-- Base-2 logarithm (floor) computed with explicit structural fuel so the
kernel can evaluate it; nlog2 below is exact for arguments under 2^128. -/
def nlog2fuel : Nat → Nat → Nat
  | 0, _ => 0
  | f + 1, n => if n ≤ 1 then 0 else nlog2fuel f (n / 2) + 1

/-- Floor base-2 logarithm, exact for n < 2^128 (all numbers arising here). -/
def nlog2 (n : Nat) : Nat := nlog2fuel 128 n

/-- Round the fraction p / q (with q positive) to the nearest natural,
ties to even. -/
def rndFrac (p q : Nat) : Nat :=
  let t := p / q
  let r := p % q
  if 2 * r < q then t
  else if q < 2 * r then t + 1
  else if t % 2 = 0 then t else t + 1

/-- A dyadic rational m * 2^e: the exact value of an IEEE-754 binary64
number (every finite binary64 value has this form with |m| < 2^53). -/
structure Dy where
  m : Int
  e : Int
  deriving DecidableEq

/-- The binary64 value nearest to the positive fraction p / q (round to
nearest, ties to even): the result of parsing a decimal literal or of an
exact division of representable values.  All quantities here lie well inside
the normal range, so exponent clamping never triggers. -/
def rndPosRat (p q : Nat) : Dy :=
  let e1 : Int := (nlog2 p : Int) - (nlog2 q : Int)
  let expo : Int :=
    if 0 ≤ e1 then (if q * 2 ^ e1.toNat ≤ p then e1 else e1 - 1)
    else (if q ≤ p * 2 ^ (-e1).toNat then e1 else e1 - 1)
  let shift : Int := 52 - expo
  let msig : Nat :=
    if 0 ≤ shift then rndFrac (p * 2 ^ shift.toNat) q
    else rndFrac p (q * 2 ^ (-shift).toNat)
  ⟨(msig : Int), expo - 52⟩

/-- Re-round an exact dyadic value to 53 significand bits (round to nearest,
ties to even): the rounding step every binary64 operation performs on its
exact result. -/
def rndDy (x : Dy) : Dy :=
  if x.m = 0 then ⟨0, 0⟩
  else
    let a := x.m.natAbs
    let b := nlog2 a
    if b ≤ 52 then x
    else
      let s := b - 52
      let t := rndFrac a (2 ^ s)
      ⟨if x.m < 0 then -(t : Int) else (t : Int), x.e + (s : Int)⟩

/-- Binary64 subtraction: exact difference, then rounding. -/
def dySub (x y : Dy) : Dy :=
  let e := min x.e y.e
  rndDy ⟨x.m * 2 ^ (x.e - e).toNat - y.m * 2 ^ (y.e - e).toNat, e⟩

/-- Binary64 multiplication by an exactly representable integer (here 1e8):
exact product, then rounding. -/
def dyMulInt (x : Dy) (k : Int) : Dy := rndDy ⟨x.m * k, x.e⟩

/-- Math.floor of a binary64 value (exact on dyadics). -/
def dyFloor (x : Dy) : Int :=
  if 0 ≤ x.e then x.m * 2 ^ x.e.toNat else Int.fdiv x.m (2 ^ (-x.e).toNat)

/-- The binary64 amount field of a UTXO holding s base units: listunspent
prints the amount as an 8-decimal BTC figure, which JSON.parse turns into
the nearest binary64 to s / 1e8. -/
def doubleOfSats (s : Nat) : Dy := rndPosRat s 100000000

/-- The binary64 value of the literal 0.0001 at line 312. -/
def SPEND_FEE_DOUBLE : Dy := rndPosRat 1 10000

/-- Line 312: value = Math.floor((spendUtxo.amount - 0.0001) * 1e8),
with both operations performed in binary64. -/
def spendOutputValue (amount : Dy) : Int :=
  dyFloor (dyMulInt (dySub amount SPEND_FEE_DOUBLE) 100000000)

/-- The spend transaction outputs: lines 308-313 add exactly one output,
paying the destination address spendOutputValue base units. -/
structure SpendTx where
  outputValues : List Int
  deriving DecidableEq

/-- The output list built by the addOutput call of lines 308-313. -/
def buildSpendTx (amount : Dy) : SpendTx := ⟨[spendOutputValue amount]⟩

/-- The value the claim asserts for the single output: the input amount
minus the 0.0001 BTC fee, exactly, in base units.  This definition follows
the words of the spec, for comparison with spendOutputValue. -/
def claimedSpendValueSats (s : Nat) : Int := (s : Int) - (SPEND_FEE_SATS : Int)

/- ## PSBT signing and finalization (lines 301-322) -/

/-- A signature blob. -/
abbrev Sig := List Nat

/-- The single input of the spend PSBT (lines 301-307): the threshold and
key list embedded in the redeem script supplied in addInput, plus the
partial signatures attached so far by signInput, keyed by public key. -/
structure PsbtInput where
  m : Nat
  scriptPubkeys : List PubKey
  sigs : List (PubKey × Sig)

/-- A finalized, broadcastable transaction input: the unlocking script
items substituted by finalization (an OP_0 placeholder, the signatures, and
the serialized redeem script). -/
structure FinalizedTx where
  unlockingScriptItems : List (List Nat)

/-- Errors of the spend authorization. -/
inductive SpendError where
  | IncompleteSignatureSet
  deriving DecidableEq

/-- The distinct keys of the redeem script that carry a valid attached
signature, judged by the external verifier verify. -/
def validSigKeys (verify : Sig → PubKey → Bool) (inp : PsbtInput) : List PubKey :=
  inp.scriptPubkeys.filter fun pk => inp.sigs.any fun s => s.1 == pk && verify s.2 pk

/-- Modelled from the spec: the finalization performed by the external PSBT
library at psbt.finalizeAllInputs() (line 319) is not part of this
repository; per the spec, a PSBT becomes complete only once at least M valid
signatures from distinct keys among the redeem script N are attached,
finalization then substitutes a satisfying unlocking script referencing the
redeem script into the input, and finalizing with fewer than M valid
signatures fails with an IncompleteSignatureSet error. -/
def finalizeInput (verify : Sig → PubKey → Bool) (inp : PsbtInput) :
    Except SpendError FinalizedTx :=
  if inp.m ≤ (validSigKeys verify inp).length then
    Except.ok
      ⟨[0] ::
        (inp.sigs.filter fun s => inp.scriptPubkeys.contains s.1 && verify s.2 s.1).map
          (·.2) ++ [p2msOutput inp.m inp.scriptPubkeys]⟩
  else Except.error SpendError.IncompleteSignatureSet

/- ## Configuration validation of the multisig builder -/

/-- Failure of the multisig construction. -/
inductive BuildError where
  | ConfigurationError
  deriving DecidableEq

/-- Modelled from the spec: the repository fixes M = 2 and N = 3 (lines
17-18) and delegates the M-of-N validation to the external library payment
constructor (line 83), whose code is not part of this repository; per the
spec, the Multisig Builder must reject M greater than N or M below 1 with a
ConfigurationError and otherwise build the redeem script over the sorted
keys. -/
def buildMultisig (m : Nat) (pubkeys : List PubKey) : Except BuildError (List Nat) :=
  if pubkeys.length < m ∨ m < 1 then Except.error BuildError.ConfigurationError
  else Except.ok (bootstrapRedeemScript m pubkeys)

/- ## Helper lemmas -/

/-- Sorting by bufCompare normalizes the order: permuted inputs sort to the
same list (bufLe is total, transitive and antisymmetric, and sorted
permutations of the same multiset coincide). -/
theorem sortKeys_eq_of_perm {xs ys : List PubKey} (h : xs.Perm ys) :
    sortKeys xs = sortKeys ys :=
  List.eq_of_perm_of_sorted
    (((List.perm_insertionSort bufLe xs).trans h).trans
      (List.perm_insertionSort bufLe ys).symm)
    (List.sorted_insertionSort bufLe xs)
    (List.sorted_insertionSort bufLe ys)

/- ## Claim theorems -/

/-- Claim C1: for every threshold M and input key list, the redeem script and
the P2SH address built by bootstrap are invariant under any permutation of
the input key order, because the keys are sorted by bytewise comparison
before the script is built.  The address encoder addrOf is the external
hash-and-encode function, arbitrary here. -/
theorem bootstrap_multisig_perm_invariant (addrOf : List Nat → String) (m : Nat)
    (xs ys : List PubKey) (h : xs.Perm ys) :
    bootstrapRedeemScript m xs = bootstrapRedeemScript m ys ∧
    bootstrapAddress addrOf m xs = bootstrapAddress addrOf m ys := by
  have hs := sortKeys_eq_of_perm h
  unfold bootstrapAddress bootstrapRedeemScript
  rw [hs]
  exact ⟨rfl, rfl⟩

/-- Witness for C1 at a concrete permutation of three keys. -/
theorem bootstrap_multisig_perm_invariant_witness :
    bootstrapRedeemScript 2 [[3, 7], [2], [2, 5]] =
      bootstrapRedeemScript 2 [[2], [2, 5], [3, 7]] ∧
    bootstrapAddress (fun _ => "addr") 2 [[3, 7], [2], [2, 5]] =
      bootstrapAddress (fun _ => "addr") 2 [[2], [2, 5], [3, 7]] :=
  bootstrap_multisig_perm_invariant (fun _ => "addr") 2
    [[3, 7], [2], [2, 5]] [[2], [2, 5], [3, 7]] (by decide)

/-- Claim C2: finalizing with fewer than M valid signatures (counted over
distinct keys of the redeem script) fails with IncompleteSignatureSet;
with exactly M valid signatures from M distinct script keys it succeeds and
the finalized input carries the serialized redeem script. -/
theorem finalizeInput_threshold (verify : Sig → PubKey → Bool) (inp : PsbtInput) :
    ((validSigKeys verify inp).length < inp.m →
      finalizeInput verify inp = Except.error SpendError.IncompleteSignatureSet) ∧
    ((validSigKeys verify inp).length = inp.m →
      ∃ tx, finalizeInput verify inp = Except.ok tx ∧
        p2msOutput inp.m inp.scriptPubkeys ∈ tx.unlockingScriptItems) := by
  constructor
  · intro h
    unfold finalizeInput
    rw [if_neg (by omega)]
  · intro h
    unfold finalizeInput
    rw [if_pos (by omega)]
    exact ⟨_, rfl, by simp⟩

/-- Witness for C2: a 2-of-3 script with one attached signature fails to
finalize, and with two valid signatures from two distinct keys it finalizes
into a transaction embedding the redeem script. -/
theorem finalizeInput_threshold_witness :
    finalizeInput (fun _ _ => true) ⟨2, [[1], [2], [3]], [([1], [9])]⟩ =
      Except.error SpendError.IncompleteSignatureSet ∧
    ∃ tx, finalizeInput (fun _ _ => true)
        ⟨2, [[1], [2], [3]], [([1], [9]), ([2], [8])]⟩ = Except.ok tx ∧
      p2msOutput 2 [[1], [2], [3]] ∈ tx.unlockingScriptItems :=
  ⟨(finalizeInput_threshold (fun _ _ => true) ⟨2, [[1], [2], [3]], [([1], [9])]⟩).1
      (by decide),
   (finalizeInput_threshold (fun _ _ => true)
      ⟨2, [[1], [2], [3]], [([1], [9]), ([2], [8])]⟩).2 (by decide)⟩

/-- Claim C3 counterexample: a spendable UTXO of 0.0105 BTC satisfies the
claimed condition (amount at least funding plus fee, 0.010005 BTC) yet the
code selects no UTXO and the funding step fails, because the source predicate
requires amount at least funding plus 0.001 BTC (0.011 BTC). -/
theorem utxo_selection_claim_counterexample :
    specSelectUtxo [⟨"t", 0, 1050000, true⟩] = some ⟨"t", 0, 1050000, true⟩ ∧
    selectUtxo [⟨"t", 0, 1050000, true⟩] = none ∧
    fundingStep [⟨"t", 0, 1050000, true⟩] =
      Except.error FundingError.NoSuitableUtxo := by
  refine ⟨by decide, by decide, by rfl⟩

/-- Claim C3 amended: the funding step selects the first UTXO in listing
order whose amount is at least the funding amount plus a fixed 0.001 BTC
margin (strictly more than the fee) and which is spendable; when no UTXO
satisfies that condition the run fails. -/
theorem utxo_selection_first_fit (utxos : List Utxo) :
    (selectUtxo utxos = none →
      fundingStep utxos = Except.error FundingError.NoSuitableUtxo) ∧
    ∀ u, selectUtxo utxos = some u ↔
      suitableUtxo u = true ∧
        ∃ pre post, utxos = pre ++ u :: post ∧ ∀ v ∈ pre, suitableUtxo v = false := by
  constructor
  · intro h
    unfold fundingStep
    rw [h]
  · intro u
    unfold selectUtxo
    rw [List.find?_eq_some]
    simp

/-- Witness for C3 instantiating the amended first-fit description: the
second UTXO is picked exactly when the first is unsuitable. -/
theorem utxo_selection_first_fit_witness :
    selectUtxo [⟨"a", 0, 500, true⟩, ⟨"b", 1, 2000000, true⟩] =
      some ⟨"b", 1, 2000000, true⟩ ↔
    suitableUtxo ⟨"b", 1, 2000000, true⟩ = true ∧
      ∃ pre post,
        [⟨"a", 0, 500, true⟩, ⟨"b", 1, 2000000, true⟩] =
          pre ++ (⟨"b", 1, 2000000, true⟩ : Utxo) :: post ∧
        ∀ v ∈ pre, suitableUtxo v = false :=
  (utxo_selection_first_fit [⟨"a", 0, 500, true⟩, ⟨"b", 1, 2000000, true⟩]).2
    ⟨"b", 1, 2000000, true⟩

/-- Claim C4: the wallet load catch branch creates the wallet exactly on the
does-not-exist codes -4 and -18, treats exactly code -35 (already loaded) as
success, and every other outcome of the load attempt is fatal. -/
theorem wallet_load_error_branching (c : Option Int) :
    (handleWalletLoadError c = WalletLoadOutcome.createdWallet ↔
      (c = some (-4) ∨ c = some (-18))) ∧
    (handleWalletLoadError c = WalletLoadOutcome.alreadyLoadedOk ↔ c = some (-35)) ∧
    (handleWalletLoadError c = WalletLoadOutcome.fatalError ↔
      (c ≠ some (-4) ∧ c ≠ some (-18) ∧ c ≠ some (-35))) := by
  unfold handleWalletLoadError
  split_ifs with h1 h2
  · rcases h1 with h | h <;> subst h <;> simp
  · subst h2
    simp_all
  · push_neg at h1
    simp_all

/-- Claim C5 counterexample: at a funded UTXO of 1.23456789 BTC the binary64
evaluation of Math.floor((amount - 0.0001) * 1e8) yields 123446788 base
units, one short of the claimed exact amount-minus-fee value 123446789. -/
theorem spend_value_exactness_counterexample :
    buildSpendTx (doubleOfSats 123456789) = ⟨[123446788]⟩ ∧
    claimedSpendValueSats 123456789 = 123446789 := by
  exact ⟨by decide, by decide⟩

/-- Claim C5 amended: the spend transaction has exactly one output, whose
value is floor((amount - 0.0001 BTC) * 1e8) evaluated in binary64; at the
program funding amount of 0.01 BTC (1000000 base units) this equals the
input amount minus the fee exactly, 990000 base units. -/
theorem spend_value_funding_exact :
    buildSpendTx (doubleOfSats FUNDING_AMOUNT_SATS) =
      ⟨[claimedSpendValueSats FUNDING_AMOUNT_SATS]⟩ ∧
    claimedSpendValueSats FUNDING_AMOUNT_SATS = 990000 := by
  exact ⟨by decide, by decide⟩

/-- Claim C6: when the chain height is below the 101-block coinbase maturity
threshold the script mines 101 blocks, which brings the height to at least
the threshold; at or above the threshold it mines none. -/
theorem maturation_mining_spec (h : Nat) :
    (h < COINBASE_MATURITY →
      maturationBlocksToMine h = 101 ∧
        COINBASE_MATURITY ≤ h + maturationBlocksToMine h) ∧
    (COINBASE_MATURITY ≤ h → maturationBlocksToMine h = 0) := by
  unfold maturationBlocksToMine COINBASE_MATURITY
  constructor
  · intro hh
    rw [if_pos hh]
    omega
  · intro hh
    rw [if_neg (by omega)]

/-- Witness for C6 at heights 50 (below maturity) and 150 (above). -/
theorem maturation_mining_spec_witness :
    (maturationBlocksToMine 50 = 101 ∧
      COINBASE_MATURITY ≤ 50 + maturationBlocksToMine 50) ∧
    maturationBlocksToMine 150 = 0 :=
  ⟨(maturation_mining_spec 50).1 (by decide), (maturation_mining_spec 150).2 (by decide)⟩

/-- Claim C7: the multisig builder rejects every configuration with M
greater than N or M below 1 with a ConfigurationError. -/
theorem buildMultisig_rejects_bad_config (m : Nat) (pubkeys : List PubKey)
    (h : pubkeys.length < m ∨ m < 1) :
    buildMultisig m pubkeys = Except.error BuildError.ConfigurationError := by
  unfold buildMultisig
  rw [if_pos h]

/-- Witness for C7 at M = 3 over two keys and at M = 0 over three keys. -/
theorem buildMultisig_rejects_bad_config_witness :
    buildMultisig 3 [[1], [2]] = Except.error BuildError.ConfigurationError ∧
    buildMultisig 0 [[1], [2], [3]] = Except.error BuildError.ConfigurationError :=
  ⟨buildMultisig_rejects_bad_config 3 [[1], [2]] (by decide),
   buildMultisig_rejects_bad_config 0 [[1], [2], [3]] (by decide)⟩

/-- Claim C8: key derivation is deterministic: the derived key pairs are a
pure function of the crypto primitives applied to the fixed mnemonic and
path scheme, so two environments agreeing on the crypto primitives (but
differing in any other ambient input such as node responses or the clock)
yield identical key pairs. -/
theorem key_derivation_deterministic (e1 e2 : Env) (h : e1.crypto = e2.crypto) :
    bootstrapKeyPairs e1 = bootstrapKeyPairs e2 := by
  unfold bootstrapKeyPairs
  rw [h]

/-- Witness for C8: two environments with the same primitives and different
node responses and clocks derive the same key pairs. -/
theorem key_derivation_deterministic_witness :
    bootstrapKeyPairs ⟨⟨fun _ => [], fun _ _ => [], fun _ => ⟨[], []⟩⟩, ["x"], 0⟩ =
      bootstrapKeyPairs ⟨⟨fun _ => [], fun _ _ => [], fun _ => ⟨[], []⟩⟩, [], 7⟩ :=
  key_derivation_deterministic
    ⟨⟨fun _ => [], fun _ _ => [], fun _ => ⟨[], []⟩⟩, ["x"], 0⟩
    ⟨⟨fun _ => [], fun _ _ => [], fun _ => ⟨[], []⟩⟩, [], 7⟩ rfl

/-- Claim C9: every selected UTXO has amount at least funding plus the
0.001 BTC margin while the fee is only 500 base units, so the change is
strictly positive and the insufficient-funds branch never fires. -/
theorem insufficient_funds_branch_unreachable (utxos : List Utxo) :
    (∀ u, selectUtxo utxos = some u → 0 < changeAmountSats u) ∧
    fundingStep utxos ≠ Except.error FundingError.InsufficientFunds := by
  have key : ∀ u, selectUtxo utxos = some u → 0 < changeAmountSats u := by
    intro u hu
    have hp := List.find?_some hu
    unfold suitableUtxo at hp
    simp only [Bool.and_eq_true, decide_eq_true_eq] at hp
    unfold changeAmountSats FUNDING_AMOUNT_SATS feeEstimateSats
      FEE_RATE_SAT_PER_VBYTE txSizeEstimate
    unfold FUNDING_AMOUNT_SATS SELECTION_MARGIN_SATS at hp
    omega
  refine ⟨key, ?_⟩
  unfold fundingStep
  cases hs : selectUtxo utxos with
  | none => simp
  | some u =>
    have hpos := key u hs
    simp only []
    rw [if_neg (by omega)]
    simp

/-- Witness for C9: the selected 0.02 BTC UTXO leaves strictly positive
change. -/
theorem insufficient_funds_branch_unreachable_witness :
    0 < changeAmountSats ⟨"w", 1, 2000000, true⟩ :=
  (insufficient_funds_branch_unreachable [⟨"w", 1, 2000000, true⟩]).1
    ⟨"w", 1, 2000000, true⟩ (by decide)

/-- Claim C10: the persisted artifact stores the WIFs in derivation-index
order while its redeem script embeds the bufCompare-sorted public keys, and
the two orders differ in general: there are key pairs whose sorted key list
disagrees with the derivation-order key list at some index. -/
theorem saved_artifact_key_orders (wifOf : KeyPairM → String)
    (addrOf : List Nat → String) :
    (∀ kps : List KeyPairM,
      (savedArtifact wifOf addrOf kps).wifs = kps.map wifOf ∧
      (savedArtifact wifOf addrOf kps).redeemScript =
        p2msOutput REQUIRED_SIGNATURES (sortKeys (kps.map (·.publicKey)))) ∧
    ∃ (kps : List KeyPairM) (i : Nat),
      (sortKeys (kps.map (·.publicKey)))[i]? ≠ (kps.map (·.publicKey))[i]? := by
  refine ⟨fun kps => ⟨rfl, rfl⟩, ⟨[⟨[1], [3]⟩, ⟨[2], [2]⟩], 0, by decide⟩⟩

end MultisigBootstrap
